import Mathlib

/-!
Shallow embedding of src/rastreador.py, a single linear Streamlit script:
it renders a title, a currency selectbox, issues one HTTP GET to the
CoinGecko market-chart endpoint, displays the status code, and on a 200
response reshapes the JSON price series into a time-indexed table rendered
as a line chart plus the last five rows; on any other status it shows one
static error banner.

Modelling choices:
- Prices (JSON numbers) are embedded as rationals; timestamps as integers.
- A pandas timestamp (datetime64 with nanosecond unit) is represented by
  its integer count of nanoseconds since the epoch, which is exactly how
  pandas stores it; pd.to_datetime with unit ms multiplies by 10^6.
- The network is an oracle function from a URL and query-parameter list to
  either a transport-level error (requests.get raising before any response
  exists) or a Response value.
- Each Streamlit render call appends a Widget to the render list; an
  uncaught Python exception is modelled by RunResult.fault carrying the
  widgets already rendered before the fault.
-/

namespace Rastreador

/-- A price value from the JSON payload, embedded exactly as a rational. -/
abbrev Price := Rat

/-- One entry of the prices array of the payload: a pair of an
epoch-millisecond timestamp and a price. -/
abbrev PricePair := Int × Price

/-- The shaped table: each row pairs the time index (a pandas timestamp,
stored as integer epoch-nanoseconds) with the single remaining column,
the price. Row order is list order. -/
abbrev DataFrame := List (Int × Price)

/-- Source line 18, response.json(): the parsed JSON body. Only the
field actually accessed by the script is modelled; prices is none when
the payload lacks that key, in which case the subscript access raises. -/
structure Payload where
  prices : Option (List PricePair)

/-- Source line 12: a transport-level failure raised by requests.get
before any response object exists (DNS failure, connection refused, ...). -/
structure TransportError where
  msg : String

/-- An HTTP response as the script observes it: a numeric status code and
the parsed JSON body. -/
structure Response where
  status_code : Nat
  body : Payload

/-- The Python exceptions the script can die of. -/
inductive Fault where
  | transport (e : TransportError)
  | keyError (key : String)

/-- One rendered Streamlit element. -/
inductive Widget where
  | title (text : String)
  | selectbox (label : String) (options : List String)
  | statusLine (label : String) (code : Nat)
  | lineChart (df : DataFrame)
  | tableView (df : DataFrame)
  | errorBanner (msg : String)

/-- Outcome of one top-to-bottom run of the script: either a completed
render, or an uncaught fault together with the widgets rendered before it. -/
inductive RunResult where
  | ok (rendered : List Widget)
  | fault (rendered : List Widget) (f : Fault)

/-- The widgets the user sees, whether or not the run completed. -/
def displayed : RunResult → List Widget
  | RunResult.ok ws => ws
  | RunResult.fault ws _ => ws

/-- Source line 7: the closed option set of the selectbox. -/
def moedaOptions : List String := ["bitcoin", "ethereum", "dogecoin"]

/-- Semantics of st.selectbox: given the option list and the user
interaction (an in-range chosen index, or none when the user has not
interacted), it returns the chosen option, defaulting to the first one. -/
def selectboxResult (options : List String)
    (interaction : Option (Fin options.length)) : Option String :=
  match interaction with
  | some i => some (options.get i)
  | none => options.head?

/-- Source line 9: the request URL built from the selected identifier. -/
def url (moeda : String) : String :=
  "https://api.coingecko.com/api/v3/coins/" ++ moeda ++ "/market_chart"

/-- Source line 10: the fixed query parameters of the request. -/
def params : List (String × String) := [("vs_currency", "usd"), ("days", "7")]

/-- Source line 19, pd.to_datetime with unit ms: an integer count of
epoch-milliseconds becomes a pandas timestamp, stored as integer
epoch-nanoseconds (one millisecond is 10^6 nanoseconds). -/
def pdToDatetimeNs (ms : Int) : Int := ms * 1000000

/-- The inverse reading of a pandas timestamp back as epoch-milliseconds
(its nanosecond value integer-divided by 10^6). -/
def pdTimestampToMs (ns : Int) : Int := ns / 1000000

/-- Source lines 18-20, the Data Shaper: look up the prices key (a
KeyError fault when absent), build the two-column table, convert the
timestamp column from epoch-milliseconds to pandas timestamps, and set
it as the index, leaving price as the only column. -/
def shape (p : Payload) : Except Fault DataFrame :=
  match p.prices with
  | none => Except.error (Fault.keyError "prices")
  | some rows =>
      Except.ok (((rows.map Prod.fst).map pdToDatetimeNs).zip (rows.map Prod.snd))

/-- Source line 23, df.tail(): the last five rows of the table (all rows
when there are fewer than five). -/
def dfTail (df : DataFrame) : DataFrame := df.drop (df.length - 5)

/-- Source lines 5-7: the widgets rendered before the network call. -/
def headerWidgets : List Widget :=
  [Widget.title "💹 Rastreador de Criptomoedas",
   Widget.selectbox "Selecione a Criptomoeda:" moedaOptions]

/-- The whole script, top to bottom (source lines 5-25), parameterised by
the user interaction with the selectbox and by the network oracle. -/
def script (interaction : Option (Fin moedaOptions.length))
    (fetch : String → List (String × String) → Except TransportError Response) :
    RunResult :=
  let moeda := (selectboxResult moedaOptions interaction).getD ""
  match fetch (url moeda) params with
  | Except.error e => RunResult.fault headerWidgets (Fault.transport e)
  | Except.ok response =>
      let shown := headerWidgets ++ [Widget.statusLine "Status code:" response.status_code]
      if response.status_code = 200 then
        match shape response.body with
        | Except.error f => RunResult.fault shown f
        | Except.ok df =>
            RunResult.ok (shown ++ [Widget.lineChart df, Widget.tableView (dfTail df)])
      else
        RunResult.ok (shown ++ [Widget.errorBanner "Erro ao buscar dados da API"])

/-- The table the shaping step produces from a present prices array: each
input pair, in input order, mapped to its converted timestamp paired with
its unchanged price. -/
def shapedDf (rows : List PricePair) : DataFrame :=
  rows.map (fun r => (pdToDatetimeNs r.1, r.2))

/-- Helper: shaping a present prices array yields exactly shapedDf. -/
theorem shape_some (rows : List PricePair) :
    shape (Payload.mk (some rows)) = Except.ok (shapedDf rows) := by
  simp [shape, shapedDf, List.map_map, List.zip_map']

/-- Helper: unfolding of the script once the network oracle is known to
return a response. -/
theorem script_of_response (interaction : Option (Fin moedaOptions.length))
    (fetch : String → List (String × String) → Except TransportError Response)
    (resp : Response) (hfetch : ∀ u p, fetch u p = Except.ok resp) :
    script interaction fetch =
      (let shown := headerWidgets ++ [Widget.statusLine "Status code:" resp.status_code]
       if resp.status_code = 200 then
         match shape resp.body with
         | Except.error f => RunResult.fault shown f
         | Except.ok df =>
             RunResult.ok (shown ++ [Widget.lineChart df, Widget.tableView (dfTail df)])
       else
         RunResult.ok (shown ++ [Widget.errorBanner "Erro ao buscar dados da API"])) := by
  simp only [script, hfetch]

/-- C1: for each of the three supported currency identifiers, the Data
Fetcher builds a request URL holding that exact identifier in the coins
path segment of the market-chart endpoint, and the query parameters are
exactly vs_currency=usd and days=7. -/
theorem request_url_and_params :
    url "bitcoin" = "https://api.coingecko.com/api/v3/coins/bitcoin/market_chart" ∧
    url "ethereum" = "https://api.coingecko.com/api/v3/coins/ethereum/market_chart" ∧
    url "dogecoin" = "https://api.coingecko.com/api/v3/coins/dogecoin/market_chart" ∧
    params = [("vs_currency", "usd"), ("days", "7")] ∧
    moedaOptions = ["bitcoin", "ethereum", "dogecoin"] :=
  ⟨rfl, rfl, rfl, rfl, rfl⟩

/-- C2: shaping a successful payload whose prices array has N pairs yields
a table with exactly N rows, in input order, whose index entry is each
input value read as epoch-milliseconds and converted to a timestamp, with
price as the only remaining column. -/
theorem shape_rows (rows : List PricePair) :
    shape (Payload.mk (some rows)) = Except.ok (shapedDf rows) ∧
    (shapedDf rows).length = rows.length ∧
    ∀ r ∈ rows, (pdToDatetimeNs r.1, r.2) ∈ shapedDf rows :=
  ⟨shape_some rows, by simp [shapedDf], fun r hr => List.mem_map_of_mem _ hr⟩

/-- C3: on a 200 response with a prices array of N pairs, the tail display
shows dfTail of the shaped table, which has exactly min 5 N rows and
consists of the chronologically last rows of the shaped table. -/
theorem tail_display (interaction : Option (Fin moedaOptions.length))
    (fetch : String → List (String × String) → Except TransportError Response)
    (rows : List PricePair)
    (hfetch : ∀ u p, fetch u p = Except.ok ⟨200, Payload.mk (some rows)⟩) :
    Widget.tableView (dfTail (shapedDf rows)) ∈ displayed (script interaction fetch) ∧
    (dfTail (shapedDf rows)).length = min 5 rows.length ∧
    (shapedDf rows).take ((shapedDf rows).length - 5) ++ dfTail (shapedDf rows) =
      shapedDf rows := by
  have h1 : script interaction fetch =
      RunResult.ok (headerWidgets ++ [Widget.statusLine "Status code:" 200] ++
        [Widget.lineChart (shapedDf rows), Widget.tableView (dfTail (shapedDf rows))]) := by
    rw [script_of_response _ _ _ hfetch]
    simp [shape_some]
  refine ⟨?_, ?_, ?_⟩
  · rw [h1]; simp [displayed]
  · simp only [dfTail, List.length_drop, shapedDf, List.length_map]
    omega
  · unfold dfTail
    exact List.take_append_drop _ _

/-- Witness for C3 at a concrete two-row response. -/
theorem tail_display_witness :
    Widget.tableView
        (dfTail (shapedDf [((1700000000000 : Int), (3 : Rat)), ((1700000060000 : Int), (4 : Rat))])) ∈
      displayed (script none (fun _ _ =>
        Except.ok ⟨200, Payload.mk
          (some [((1700000000000 : Int), (3 : Rat)), ((1700000060000 : Int), (4 : Rat))])⟩)) :=
  (tail_display none
    (fun _ _ => Except.ok ⟨200, Payload.mk
      (some [((1700000000000 : Int), (3 : Rat)), ((1700000060000 : Int), (4 : Rat))])⟩)
    [((1700000000000 : Int), (3 : Rat)), ((1700000060000 : Int), (4 : Rat))]
    (fun _ _ => rfl)).1

/-- C4: on any non-200 response the run completes having rendered exactly
the header, the status line with the response status code, and one static
error banner with no further detail; no chart and no table appear. -/
theorem non200_error (interaction : Option (Fin moedaOptions.length))
    (fetch : String → List (String × String) → Except TransportError Response)
    (resp : Response) (hfetch : ∀ u p, fetch u p = Except.ok resp)
    (hstatus : resp.status_code ≠ 200) :
    script interaction fetch =
      RunResult.ok (headerWidgets ++ [Widget.statusLine "Status code:" resp.status_code] ++
        [Widget.errorBanner "Erro ao buscar dados da API"]) ∧
    ∀ df : DataFrame, Widget.lineChart df ∉ displayed (script interaction fetch) ∧
      Widget.tableView df ∉ displayed (script interaction fetch) := by
  have h1 : script interaction fetch =
      RunResult.ok (headerWidgets ++ [Widget.statusLine "Status code:" resp.status_code] ++
        [Widget.errorBanner "Erro ao buscar dados da API"]) := by
    rw [script_of_response _ _ _ hfetch]
    simp [hstatus]
  refine ⟨h1, ?_⟩
  intro df
  rw [h1]
  simp [displayed, headerWidgets]

/-- Witness for C4 at a concrete 404 response. -/
theorem non200_error_witness :
    script none (fun _ _ => Except.ok ⟨404, Payload.mk none⟩) =
      RunResult.ok (headerWidgets ++ [Widget.statusLine "Status code:" 404] ++
        [Widget.errorBanner "Erro ao buscar dados da API"]) :=
  (non200_error none (fun _ _ => Except.ok ⟨404, Payload.mk none⟩)
    ⟨404, Payload.mk none⟩ (fun _ _ => rfl) (by decide)).1

/-- C5: converting an epoch-millisecond value to a pandas timestamp and
reading that timestamp back as epoch-milliseconds recovers the original
value exactly, with no precision loss. -/
theorem to_datetime_roundtrip (ms : Int) :
    pdTimestampToMs (pdToDatetimeNs ms) = ms := by
  unfold pdTimestampToMs pdToDatetimeNs
  omega

/-- C6: the shaping step is a deterministic pure function of the payload:
two runs on the same payload produce identical tables. -/
theorem shape_deterministic (p q : Payload) (h : p = q) : shape p = shape q :=
  congrArg shape h

/-- Witness for C6 at a concrete payload. -/
theorem shape_deterministic_witness :
    shape (Payload.mk (some [((1700000000000 : Int), (3 : Rat))])) =
      shape (Payload.mk (some [((1700000000000 : Int), (3 : Rat))])) :=
  shape_deterministic _ _ rfl

/-- C7: whenever the network call returns a response, the numeric HTTP
status code is displayed, on the success and the failure branch alike. -/
theorem status_code_displayed (interaction : Option (Fin moedaOptions.length))
    (fetch : String → List (String × String) → Except TransportError Response)
    (resp : Response) (hfetch : ∀ u p, fetch u p = Except.ok resp) :
    Widget.statusLine "Status code:" resp.status_code ∈
      displayed (script interaction fetch) := by
  rw [script_of_response _ _ _ hfetch]
  by_cases h : resp.status_code = 200
  · cases hshape : shape resp.body with
    | error f => simp [h, hshape, displayed]
    | ok df => simp [h, hshape, displayed]
  · simp [h, displayed]

/-- Witness for C7 at a concrete 500 response. -/
theorem status_code_displayed_witness :
    Widget.statusLine "Status code:" 500 ∈
      displayed (script none (fun _ _ => Except.ok ⟨500, Payload.mk none⟩)) :=
  status_code_displayed none (fun _ _ => Except.ok ⟨500, Payload.mk none⟩)
    ⟨500, Payload.mk none⟩ (fun _ _ => rfl)

/-- C8: the selectbox offers exactly the closed set of three options,
always returns exactly one selected option drawn from that set, and
defaults to the first option bitcoin when the user does not interact. -/
theorem selectbox_contract :
    moedaOptions = ["bitcoin", "ethereum", "dogecoin"] ∧
    (∀ interaction : Option (Fin moedaOptions.length),
      ∃ m, selectboxResult moedaOptions interaction = some m ∧ m ∈ moedaOptions) ∧
    selectboxResult moedaOptions none = some "bitcoin" := by
  refine ⟨rfl, ?_, rfl⟩
  intro interaction
  cases interaction with
  | none => exact ⟨"bitcoin", rfl, by simp [moedaOptions]⟩
  | some i => exact ⟨moedaOptions.get i, rfl, List.get_mem _ _ _⟩

/-- C9: only the status not equal to 200 condition is branched on; a
transport-level fault and a payload missing the prices key both propagate
as uncaught faults terminating the run, with no locally produced error
banner displayed. -/
theorem uncaught_fault_propagation (interaction : Option (Fin moedaOptions.length)) :
    (∀ (fetch : String → List (String × String) → Except TransportError Response)
        (e : TransportError), (∀ u p, fetch u p = Except.error e) →
      script interaction fetch = RunResult.fault headerWidgets (Fault.transport e) ∧
      ∀ msg, Widget.errorBanner msg ∉ displayed (script interaction fetch)) ∧
    (∀ (fetch : String → List (String × String) → Except TransportError Response)
        (resp : Response), (∀ u p, fetch u p = Except.ok resp) →
        resp.status_code = 200 → resp.body.prices = none →
      script interaction fetch =
        RunResult.fault (headerWidgets ++ [Widget.statusLine "Status code:" 200])
          (Fault.keyError "prices") ∧
      ∀ msg, Widget.errorBanner msg ∉ displayed (script interaction fetch)) := by
  constructor
  · intro fetch e hfetch
    have h1 : script interaction fetch = RunResult.fault headerWidgets (Fault.transport e) := by
      simp only [script, hfetch]
    refine ⟨h1, ?_⟩
    intro msg
    rw [h1]
    simp [displayed, headerWidgets]
  · intro fetch resp hfetch h200 hnone
    have h1 : script interaction fetch =
        RunResult.fault (headerWidgets ++ [Widget.statusLine "Status code:" 200])
          (Fault.keyError "prices") := by
      rw [script_of_response _ _ _ hfetch]
      simp [h200, shape, hnone]
    refine ⟨h1, ?_⟩
    intro msg
    rw [h1]
    simp [displayed, headerWidgets]

/-- Witness for C9 at a concrete transport failure. -/
theorem uncaught_fault_propagation_witness :
    script none (fun _ _ => Except.error (TransportError.mk "connection refused")) =
      RunResult.fault headerWidgets (Fault.transport (TransportError.mk "connection refused")) :=
  ((uncaught_fault_propagation none).1
    (fun _ _ => Except.error (TransportError.mk "connection refused"))
    (TransportError.mk "connection refused") (fun _ _ => rfl)).1

/-- C10: a 200 response with an empty prices array shapes to a zero-row
table without faulting, and the run completes rendering an empty chart and
an empty tail display. -/
theorem empty_prices_renders (interaction : Option (Fin moedaOptions.length))
    (fetch : String → List (String × String) → Except TransportError Response)
    (hfetch : ∀ u p, fetch u p = Except.ok ⟨200, Payload.mk (some [])⟩) :
    script interaction fetch =
      RunResult.ok (headerWidgets ++ [Widget.statusLine "Status code:" 200] ++
        [Widget.lineChart [], Widget.tableView []]) ∧
    shape (Payload.mk (some [])) = Except.ok [] := by
  constructor
  · rw [script_of_response _ _ _ hfetch]
    simp [shape_some, shapedDf, dfTail]
  · exact shape_some []

/-- Witness for C10 at a concrete empty-prices response. -/
theorem empty_prices_renders_witness :
    script none (fun _ _ => Except.ok ⟨200, Payload.mk (some [])⟩) =
      RunResult.ok (headerWidgets ++ [Widget.statusLine "Status code:" 200] ++
        [Widget.lineChart [], Widget.tableView []]) :=
  (empty_prices_renders none (fun _ _ => Except.ok ⟨200, Payload.mk (some [])⟩)
    (fun _ _ => rfl)).1

end Rastreador
